import Mathlib

/-!
Verification of the dispatch core of the no-code-architects toolkit:
the per-request dispatcher (`queue_task.wrapper` in `app.py`), the
single worker loop (`TaskQueueManager._process_queue`), and the webhook
notifier (`services/webhook.py`).  Python dicts are modelled as
association lists in insertion order, clock readings (`time.time()`)
as explicit rational parameters supplied in program order, and a route
operation as a function that either returns its `(result, route, status)`
tuple or raises (`Except.error`).
-/

namespace NCAT

/-- JSON-compatible values stored in payloads and response envelopes.
Python `None` is `JVal.null`. -/
inductive JVal where
  | null
  | str (s : String)
  | num (q : ℚ)
deriving DecidableEq

/-- A Python dict with string keys, as an association list in insertion
order (both request payloads and response envelopes are such dicts). -/
def Dict := List (String × JVal)

instance : DecidableEq Dict :=
  inferInstanceAs (DecidableEq (List (String × JVal)))

/-- Python `d.get(k)`: the value bound to key `k`, if the key is present. -/
def Dict.get : Dict → String → Option JVal
  | [], _ => none
  | (k, v) :: l, k2 => if k = k2 then some v else Dict.get l k2

/-- Key membership test, Python `k in d`. -/
def Dict.hasKey (d : Dict) (k : String) : Bool :=
  (Dict.get d k).isSome

/-- Value of `d.get(k)` placed into an envelope: a missing key yields Python
`None`, which serialises to JSON null. -/
def Dict.getNull (d : Dict) (k : String) : JVal :=
  (Dict.get d k).getD JVal.null

/-- The 3-tuple `(response[0], response[1], response[2])` =
`(result, route, status)` that every route operation returns. -/
structure OpResult where
  result : JVal
  endpoint : String
  code : ℕ
deriving DecidableEq

/-- A route operation `f(job_id=…, data=…)`; `Except.error` models the
function raising an exception instead of returning a tuple. -/
def Op := String → Dict → Except String OpResult

/-- The tuple `(job_id, data, task_func, queue_start_time)` pushed onto
`task_queue` (app.py line 109).  `task_func` is exactly the operation
applied to `(job_id, data)`, so only those two are stored; the worker
re-applies the operation. -/
structure Job where
  job_id : String
  data : Dict
  queue_start_time : ℚ
deriving DecidableEq

/-- Floor of a rational, computed directly (floor division of numerator
by denominator) so that kernel evaluation works. -/
def ratFloor (q : ℚ) : ℤ :=
  Int.fdiv q.num q.den

/-- Python `round` on a rational: round half to even (banker's
rounding).  With `f = ⌊q⌋` the fractional part is
`r = (q.num - f * q.den) / q.den`, so `r < 1/2` iff
`2 * (q.num - f * q.den) < q.den`; the comparison is done on integers
so that kernel evaluation works. -/
def pyRound (q : ℚ) : ℤ :=
  let f := ratFloor q
  let twiceFrac := 2 * (q.num - f * (q.den : ℤ))
  if twiceFrac < (q.den : ℤ) then f
  else if (q.den : ℤ) < twiceFrac then f + 1
  else if f % 2 = 0 then f else f + 1

/-- Python `round(x, 3)`: round to 3 decimal places, half to even. -/
def round3 (q : ℚ) : ℚ :=
  (pyRound (q * 1000) : ℚ) / 1000

/-- The dict built on the inline (bypass / no-webhook) path,
app.py lines 82-95.  `run_time` is the raw elapsed time
`time.time() - start_time`; the dict stores it rounded. -/
def inline_response (resp : OpResult) (data : Dict) (job_id : String)
    (run_time : ℚ) (pid queue_id queue_length : ℕ) (build_number : JVal) : Dict :=
  [("code", JVal.num resp.code),
   ("id", Dict.getNull data "id"),
   ("job_id", JVal.str job_id),
   ("response", if resp.code = 200 then resp.result else JVal.null),
   ("message", if resp.code = 200 then JVal.str "success" else resp.result),
   ("run_time", JVal.num (round3 run_time)),
   ("queue_time", JVal.num 0),
   ("total_time", JVal.num (round3 run_time)),
   ("pid", JVal.num pid),
   ("queue_id", JVal.num queue_id),
   ("queue_length", JVal.num queue_length),
   ("build_number", build_number)]

/-- The 429 rejection dict, app.py lines 98-107. -/
def reject_response (MAX_QUEUE_LENGTH : ℤ) (data : Dict) (job_id : String)
    (pid queue_id queue_length : ℕ) (build_number : JVal) : Dict :=
  [("code", JVal.num 429),
   ("id", Dict.getNull data "id"),
   ("job_id", JVal.str job_id),
   ("message", JVal.str ("MAX_QUEUE_LENGTH (" ++ toString MAX_QUEUE_LENGTH ++ ") reached")),
   ("pid", JVal.num pid),
   ("queue_id", JVal.num queue_id),
   ("queue_length", JVal.num queue_length),
   ("build_number", build_number)]

/-- The 202 accepted dict, app.py lines 111-121.  `queue_length` is read
after the push, so the caller passes the post-push size. -/
def accept_response (MAX_QUEUE_LENGTH : ℤ) (data : Dict) (job_id : String)
    (pid queue_id queue_length : ℕ) (build_number : JVal) : Dict :=
  [("code", JVal.num 202),
   ("id", Dict.getNull data "id"),
   ("job_id", JVal.str job_id),
   ("message", JVal.str "processing"),
   ("pid", JVal.num pid),
   ("queue_id", JVal.num queue_id),
   ("max_queue_length",
     if 0 < MAX_QUEUE_LENGTH then JVal.num MAX_QUEUE_LENGTH else JVal.str "unlimited"),
   ("queue_length", JVal.num queue_length),
   ("build_number", build_number)]

/-- The dict the worker sends to the webhook, app.py lines 42-56.
`queue_time`, `run_time`, `total_time` are the raw durations; the dict
stores them rounded to 3 decimals. -/
def worker_response (resp : OpResult) (job : Job)
    (queue_time run_time total_time : ℚ) (pid queue_id queue_length : ℕ)
    (build_number : JVal) : Dict :=
  [("endpoint", JVal.str resp.endpoint),
   ("code", JVal.num resp.code),
   ("id", Dict.getNull job.data "id"),
   ("job_id", JVal.str job.job_id),
   ("response", if resp.code = 200 then resp.result else JVal.null),
   ("message", if resp.code = 200 then JVal.str "success" else resp.result),
   ("pid", JVal.num pid),
   ("queue_id", JVal.num queue_id),
   ("run_time", JVal.num (round3 run_time)),
   ("queue_time", JVal.num (round3 queue_time)),
   ("total_time", JVal.num (round3 total_time)),
   ("queue_length", JVal.num queue_length),
   ("build_number", build_number)]

/-- Outcome of one call to `queue_task.wrapper`.  Each constructor also
records the work queue after the call.  `inline`: the operation ran on
the calling thread and its final envelope is the HTTP response.
`raised`: the operation ran on the calling thread and raised (the
exception propagates to the framework, no envelope is built).
`rejected`: backpressure 429, nothing pushed.  `accepted`: a job was
pushed and the 202 envelope returned. -/
inductive DispatchOutcome where
  | inline (resp_data : Dict) (status : ℕ) (queue : List Job)
  | raised (e : String) (queue : List Job)
  | rejected (resp_data : Dict) (status : ℕ) (queue : List Job)
  | accepted (resp_data : Dict) (status : ℕ) (queue : List Job)
deriving DecidableEq

/-- The operation was invoked synchronously on the calling thread. -/
def DispatchOutcome.ranInline : DispatchOutcome → Bool
  | .inline _ _ _ => true
  | .raised _ _ => true
  | _ => false

/-- The work queue after the dispatcher call. -/
def DispatchOutcome.queueAfter : DispatchOutcome → List Job
  | .inline _ _ q => q
  | .raised _ q => q
  | .rejected _ _ q => q
  | .accepted _ _ q => q

/-- The dispatcher `queue_task.wrapper` (app.py lines 73-121).  `body` is
`request.json` when the request body is JSON and `none` otherwise
(line 75 then takes `data = {}`).  `start_time` is the clock reading at
line 77 and `t_end` the reading at line 81 after an inline operation
returns.  `q` is the current work queue (head = next to be popped). -/
def wrapper (MAX_QUEUE_LENGTH : ℤ) (bypass_queue : Bool) (f : Op)
    (job_id : String) (body : Option Dict) (pid queue_id : ℕ)
    (build_number : JVal) (start_time t_end : ℚ) (q : List Job) : DispatchOutcome :=
  let data := body.getD []
  if bypass_queue || !(Dict.hasKey data "webhook_url") then
    match f job_id data with
    | .error e => .raised e q
    | .ok resp =>
        .inline (inline_response resp data job_id (t_end - start_time)
          pid queue_id q.length build_number) resp.code q
  else
    if 0 < MAX_QUEUE_LENGTH ∧ MAX_QUEUE_LENGTH ≤ (q.length : ℤ) then
      .rejected (reject_response MAX_QUEUE_LENGTH data job_id
        pid queue_id q.length build_number) 429 q
    else
      .accepted (accept_response MAX_QUEUE_LENGTH data job_id
        pid queue_id (q.length + 1) build_number) 202
        (q ++ [⟨job_id, data, start_time⟩])

/-- Observable state of the worker: the remaining queue, the log of
`send_webhook(url, data)` calls made so far, the number of exceptions
logged by the `except` clause (line 62), and the job ids whose operation
has begun executing, in execution order. -/
structure WorkerState where
  queue : List Job
  sent : List (Option JVal × Dict)
  errors_logged : ℕ
  executed : List String
deriving DecidableEq

/-- One iteration of `TaskQueueManager._process_queue` (app.py lines
31-63) on a nonempty queue; on an empty queue `get()` blocks, modelled
as no change.  The four clock parameters are the `time.time()` readings
in program order: `t_get` (line 34, fixes `queue_time`), `t_run_start`
(line 35), `t_run_end` (line 39, fixes `run_time`), `t_done` (line 40,
fixes `total_time`).  If the operation raises, the `except` clause logs
it and the loop continues: the job is gone from the queue, no webhook is
sent. -/
def process_queue_step (f : Op) (pid queue_id : ℕ) (build_number : JVal)
    (t_get t_run_start t_run_end t_done : ℚ) (s : WorkerState) : WorkerState :=
  match s.queue with
  | [] => s
  | job :: rest =>
    match f job.job_id job.data with
    | .error _ =>
        { queue := rest, sent := s.sent, errors_logged := s.errors_logged + 1,
          executed := s.executed ++ [job.job_id] }
    | .ok resp =>
        let queue_time := t_get - job.queue_start_time
        let run_time := t_run_end - t_run_start
        let total_time := t_done - job.queue_start_time
        let rd := worker_response resp job queue_time run_time total_time
          pid queue_id rest.length build_number
        { queue := rest, sent := s.sent ++ [(Dict.get job.data "webhook_url", rd)],
          errors_logged := s.errors_logged,
          executed := s.executed ++ [job.job_id] }

/-- Several iterations of the worker loop; `ts` gives each iteration's
four clock readings. -/
def process_queue_run (f : Op) (pid queue_id : ℕ) (build_number : JVal) :
    List (ℚ × ℚ × ℚ × ℚ) → WorkerState → WorkerState
  | [], s => s
  | t :: ts, s =>
      process_queue_run f pid queue_id build_number ts
        (process_queue_step f pid queue_id build_number t.1 t.2.1 t.2.2.1 t.2.2.2 s)

/-- What the transport layer does for the single `requests.post` call
inside `WebhookManager.send_webhook`: either raise a
`RequestException` (connection error, timeout, …) or deliver a response
with the given status code. -/
inductive TransportOutcome where
  | exn
  | resp (status_code : ℕ)
deriving DecidableEq

/-- Observable trace of one `WebhookManager.send_webhook` call: how many
POST attempts were made, the timeout passed to `requests.post`, the
returned boolean, and whether a failure was logged. -/
structure WebhookTrace where
  attempts : ℕ
  timeout_used : ℤ
  success : Bool
  logged_failure : Bool
deriving DecidableEq

/-- Requests' `Response.raise_for_status`: raises
`HTTPError` exactly when the status code is in [400, 600); 1xx, 2xx,
3xx and codes ≥ 600 do not raise. -/
def raise_for_status (s : ℕ) : Except String Unit :=
  if 400 ≤ s ∧ s < 600 then Except.error ("HTTPError " ++ toString s)
  else Except.ok ()

/-- In `WebhookManager.__init__`: `self.timeout = 10` seconds. -/
def default_timeout : ℤ := 10

/-- The method `WebhookManager.send_webhook` (services/webhook.py lines 16-47).
One `requests.post` call with `timeout if timeout else self.timeout`
(note: a supplied timeout of 0 is falsy and falls back to 10); then
`raise_for_status`.  Any `RequestException` — transport failure or the
`HTTPError` raised for a 4xx/5xx status — is caught, logged, and turned
into `False`; otherwise the call returns `True`. -/
def send_webhook_with (timeout : Option ℤ) (transport : TransportOutcome) : WebhookTrace :=
  let t := match timeout with
    | some v => if v ≠ 0 then v else default_timeout
    | none => default_timeout
  match transport with
  | .exn => { attempts := 1, timeout_used := t, success := false, logged_failure := true }
  | .resp s =>
      match raise_for_status s with
      | .error _ =>
          { attempts := 1, timeout_used := t, success := false, logged_failure := true }
      | .ok _ =>
          { attempts := 1, timeout_used := t, success := true, logged_failure := false }

/-- Module-level `send_webhook(url, data)` (services/webhook.py lines
49-52): builds a fresh manager and calls it with no per-call timeout. -/
def send_webhook (transport : TransportOutcome) : WebhookTrace :=
  send_webhook_with none transport

/-- A concrete operation that returns a 200 tuple, for witnesses. -/
def opOK : Op := fun _ _ => Except.ok ⟨JVal.str "done", "/test", 200⟩

/-- A concrete operation that returns an error tuple, for witnesses. -/
def opFail : Op := fun _ _ => Except.ok ⟨JVal.str "bad request", "/test", 400⟩

/-- A concrete operation that raises, for witnesses. -/
def opErr : Op := fun _ _ => Except.error "boom"

/-- A concrete payload carrying a webhook_url, for witnesses. -/
def wkData : Dict := [("webhook_url", JVal.str "http://cb.example/hook")]

attribute [local semireducible] Rat.mul Rat.add Rat.sub Rat.inv

/-- C1: the dispatcher runs the operation inline — synchronously on the
calling thread, the final envelope (or, if the operation raises, the
propagated exception) being the HTTP response — exactly when the
route's bypass flag is true or the payload has no webhook_url key; in
every other case the outcome is the enqueue path: either a 429
rejection of the enqueue attempt or a 202 accepted push. -/
theorem C1_dispatch_decision (M : ℤ) (bp : Bool) (f : Op) (jid : String)
    (body : Option Dict) (pid qid : ℕ) (bn : JVal) (t0 t1 : ℚ) (q : List Job) :
    ((wrapper M bp f jid body pid qid bn t0 t1 q).ranInline = true
      ↔ (bp = true ∨ Dict.hasKey (body.getD []) "webhook_url" = false))
    ∧ ((wrapper M bp f jid body pid qid bn t0 t1 q).ranInline = false
      → (∃ rd q2, wrapper M bp f jid body pid qid bn t0 t1 q
            = DispatchOutcome.rejected rd 429 q2)
        ∨ (∃ rd q2, wrapper M bp f jid body pid qid bn t0 t1 q
            = DispatchOutcome.accepted rd 202 q2)) := by
  unfold wrapper
  cases bp
  · cases hk : Dict.hasKey (body.getD []) "webhook_url"
    · cases hf : f jid (body.getD []) <;>
        simp [hk, hf, DispatchOutcome.ranInline]
    · by_cases hcap : 0 < M ∧ M ≤ (q.length : ℤ) <;>
        simp [hk, hcap, DispatchOutcome.ranInline]
  · cases hf : f jid (body.getD []) <;>
      simp [hf, DispatchOutcome.ranInline]

/-- C1 witness: a bypass route with a webhook payload still runs inline. -/
theorem C1_dispatch_decision_witness :
    (wrapper 0 true opOK "job-1" (some wkData) 4 7 (JVal.num 1) 0 2 []).ranInline = true :=
  (C1_dispatch_decision 0 true opOK "job-1" (some wkData) 4 7 (JVal.num 1) 0 2 []).1.mpr
    (Or.inl rfl)

/-- C9: on the bypass / no-webhook inline path the dispatcher leaves the
work queue exactly as it was — no job is ever pushed for the request —
and when the operation returns a tuple the HTTP response is the inline
envelope, whose queue_time field is the literal 0. -/
theorem C9_inline_frame (M : ℤ) (bp : Bool) (f : Op) (jid : String)
    (body : Option Dict) (pid qid : ℕ) (bn : JVal) (t0 t1 : ℚ) (q : List Job)
    (h : bp = true ∨ Dict.hasKey (body.getD []) "webhook_url" = false) :
    (wrapper M bp f jid body pid qid bn t0 t1 q).queueAfter = q
    ∧ (∀ rd st q2, wrapper M bp f jid body pid qid bn t0 t1 q
        ≠ DispatchOutcome.accepted rd st q2)
    ∧ (∀ resp, f jid (body.getD []) = Except.ok resp →
        wrapper M bp f jid body pid qid bn t0 t1 q
          = DispatchOutcome.inline
              (inline_response resp (body.getD []) jid (t1 - t0) pid qid q.length bn)
              resp.code q
        ∧ Dict.get (inline_response resp (body.getD []) jid (t1 - t0) pid qid q.length bn)
            "queue_time" = some (JVal.num 0)) := by
  have hcond : (bp || !(Dict.hasKey (body.getD []) "webhook_url")) = true := by
    rcases h with h | h <;> simp [h]
  unfold wrapper
  cases hf : f jid (body.getD []) <;>
    simp [hcond, hf, DispatchOutcome.queueAfter, Dict.get, inline_response]

/-- C9 witness: a request without webhook_url leaves a nonempty queue
untouched. -/
theorem C9_inline_frame_witness :
    (wrapper 5 false opOK "job-2" none 4 7 (JVal.num 1) 0 2
      [⟨"k", wkData, 0⟩]).queueAfter = [⟨"k", wkData, 0⟩] :=
  (C9_inline_frame 5 false opOK "job-2" none 4 7 (JVal.num 1) 0 2
    [⟨"k", wkData, 0⟩] (Or.inr (by decide))).1

/-- C10: a request whose body is not JSON is dispatched with the empty
payload: it has no webhook_url key, runs inline whatever the bypass
flag, the backlog state and the configured limit, is never enqueued and
never rejected with 429, and its inline envelope's id field is JSON
null. -/
theorem C10_non_json_inline (M : ℤ) (bp : Bool) (f : Op) (jid : String)
    (pid qid : ℕ) (bn : JVal) (t0 t1 : ℚ) (q : List Job) :
    Dict.hasKey ((none : Option Dict).getD []) "webhook_url" = false
    ∧ (wrapper M bp f jid none pid qid bn t0 t1 q).ranInline = true
    ∧ (wrapper M bp f jid none pid qid bn t0 t1 q).queueAfter = q
    ∧ (∀ rd st q2, wrapper M bp f jid none pid qid bn t0 t1 q
        ≠ DispatchOutcome.rejected rd st q2)
    ∧ (∀ rd st q2, wrapper M bp f jid none pid qid bn t0 t1 q
        ≠ DispatchOutcome.accepted rd st q2)
    ∧ (∀ resp, f jid [] = Except.ok resp →
        Dict.get (inline_response resp [] jid (t1 - t0) pid qid q.length bn) "id"
          = some JVal.null
        ∧ wrapper M bp f jid none pid qid bn t0 t1 q
          = DispatchOutcome.inline
              (inline_response resp [] jid (t1 - t0) pid qid q.length bn)
              resp.code q) := by
  unfold wrapper
  cases bp <;> cases hf : f jid [] <;>
    simp [hf, Dict.hasKey, Dict.get, DispatchOutcome.ranInline,
      DispatchOutcome.queueAfter, inline_response, Dict.getNull]

/-- C10 witness: a non-JSON request against a full queue under a limit
of 1 still runs inline. -/
theorem C10_non_json_inline_witness :
    (wrapper 1 false opFail "job-3" none 4 7 (JVal.num 1) 0 2
      [⟨"k", wkData, 0⟩]).ranInline = true :=
  (C10_non_json_inline 1 false opFail "job-3" 4 7 (JVal.num 1) 0 2
    [⟨"k", wkData, 0⟩]).2.1

/-- C2: on the enqueue path, if a positive MAX_QUEUE_LENGTH is
configured and the backlog is at or above it, the dispatcher returns
status 429 with an envelope whose message states the configured limit
and which lacks both the response and the run_time keys, and it pushes
nothing (the queue after the call is the queue before); and with
MAX_QUEUE_LENGTH = 0 (the value when the variable is unset) no request
is ever rejected, whatever the backlog length. -/
theorem C2_backpressure :
    (∀ (M : ℤ) (f : Op) (jid : String) (data : Dict) (pid qid : ℕ)
      (bn : JVal) (t0 t1 : ℚ) (q : List Job),
      Dict.hasKey data "webhook_url" = true → 0 < M → M ≤ (q.length : ℤ) →
      wrapper M false f jid (some data) pid qid bn t0 t1 q
        = DispatchOutcome.rejected
            (reject_response M data jid pid qid q.length bn) 429 q
      ∧ Dict.get (reject_response M data jid pid qid q.length bn) "message"
          = some (JVal.str ("MAX_QUEUE_LENGTH (" ++ toString M ++ ") reached"))
      ∧ Dict.get (reject_response M data jid pid qid q.length bn) "response" = none
      ∧ Dict.get (reject_response M data jid pid qid q.length bn) "run_time" = none)
    ∧ (∀ (bp : Bool) (f : Op) (jid : String) (body : Option Dict) (pid qid : ℕ)
      (bn : JVal) (t0 t1 : ℚ) (q : List Job) (rd : Dict) (st : ℕ) (q2 : List Job),
      wrapper 0 bp f jid body pid qid bn t0 t1 q ≠ DispatchOutcome.rejected rd st q2) := by
  constructor
  · intro M f jid data pid qid bn t0 t1 q hk h1 h2
    unfold wrapper
    simp [hk, h1, h2, reject_response, Dict.get]
  · intro bp f jid body pid qid bn t0 t1 q rd st q2
    unfold wrapper
    cases bp <;> cases hk : Dict.hasKey (body.getD []) "webhook_url" <;>
      cases hf : f jid (body.getD []) <;> simp [hk, hf]

/-- C2 witness: with MAX_QUEUE_LENGTH = 1 and one job in the backlog an
async request is rejected without a push, and with the limit 0 the same
request is not rejected. -/
theorem C2_backpressure_witness :
    wrapper 1 false opOK "job-4" (some wkData) 4 7 (JVal.num 1) 0 2 [⟨"k", wkData, 0⟩]
      = DispatchOutcome.rejected
          (reject_response 1 wkData "job-4" 4 7 1 (JVal.num 1)) 429 [⟨"k", wkData, 0⟩]
    ∧ wrapper 0 false opOK "job-4" (some wkData) 4 7 (JVal.num 1) 0 2 [⟨"k", wkData, 0⟩]
      ≠ DispatchOutcome.rejected
          (reject_response 1 wkData "job-4" 4 7 1 (JVal.num 1)) 429 [⟨"k", wkData, 0⟩] :=
  ⟨(C2_backpressure.1 1 opOK "job-4" wkData 4 7 (JVal.num 1) 0 2 [⟨"k", wkData, 0⟩]
      (by decide) (by decide) (by decide)).1,
    C2_backpressure.2 false opOK "job-4" (some wkData) 4 7 (JVal.num 1) 0 2
      [⟨"k", wkData, 0⟩] (reject_response 1 wkData "job-4" 4 7 1 (JVal.num 1)) 429
      [⟨"k", wkData, 0⟩]⟩

/-- C4 counterexample: for an operation returning status 400 the inline
envelope still contains the response key — bound to JSON null — so the
response field is present although the status is not 200. -/
theorem C4_response_presence_counterexample :
    Dict.get (inline_response ⟨JVal.str "bad request", "/test", 400⟩ [] "job-5"
        0 4 7 0 (JVal.num 1)) "response" = some JVal.null
    ∧ (400 : ℕ) ≠ 200 := by decide

/-- C4 amended: in every final envelope (inline response and webhook
payload alike) the response key is always present: it carries the
operation's result exactly when the status is 200 and is JSON null
otherwise; and the message field is the literal "success" when the
status is 200 and the operation's error text otherwise. -/
theorem C4_envelope_fields (resp : OpResult) (data : Dict) (jid : String)
    (rt qt tt : ℚ) (pid qid ql ql2 : ℕ) (bn : JVal) (job : Job) :
    Dict.get (inline_response resp data jid rt pid qid ql bn) "response"
      = some (if resp.code = 200 then resp.result else JVal.null)
    ∧ Dict.get (inline_response resp data jid rt pid qid ql bn) "message"
      = some (if resp.code = 200 then JVal.str "success" else resp.result)
    ∧ Dict.get (worker_response resp job qt rt tt pid qid ql2 bn) "response"
      = some (if resp.code = 200 then resp.result else JVal.null)
    ∧ Dict.get (worker_response resp job qt rt tt pid qid ql2 bn) "message"
      = some (if resp.code = 200 then JVal.str "success" else resp.result) := by
  simp [inline_response, worker_response, Dict.get]

/-- C5: when a dequeued job's operation raises instead of returning a
tuple, the worker iteration counts one logged error, sends no webhook
(the sent log is unchanged), does not push the job back, and hands the
loop the remaining tail of the queue, so the loop goes on with the next
envelope instead of terminating. -/
theorem C5_worker_exception (f : Op) (pid qid : ℕ) (bn : JVal)
    (t1 t2 t3 t4 : ℚ) (s : WorkerState) (job : Job) (rest : List Job) (e : String)
    (hq : s.queue = job :: rest) (hf : f job.job_id job.data = Except.error e) :
    process_queue_step f pid qid bn t1 t2 t3 t4 s
      = { queue := rest, sent := s.sent, errors_logged := s.errors_logged + 1,
          executed := s.executed ++ [job.job_id] } := by
  unfold process_queue_step
  simp [hq, hf]

/-- C5 witness: a raising operation drops its job, sends nothing, and
leaves an empty queue for the next iteration. -/
theorem C5_worker_exception_witness :
    process_queue_step opErr 4 7 (JVal.num 1) 0 0 0 0
      ⟨[⟨"j", wkData, 0⟩], [], 0, []⟩ = ⟨[], [], 1, ["j"]⟩ :=
  C5_worker_exception opErr 4 7 (JVal.num 1) 0 0 0 0
    ⟨[⟨"j", wkData, 0⟩], [], 0, []⟩ ⟨"j", wkData, 0⟩ [] "boom" rfl rfl

/-- C6: FIFO — the worker executes jobs strictly in queue order: after
any number of iterations the trace of job ids whose operation has begun
executing is exactly the corresponding prefix of the queue, in order,
whatever each operation returns; and the dispatcher pushes every
accepted job at the tail of the queue. -/
theorem C6_fifo_order (f : Op) (pid qid : ℕ) (bn : JVal) :
    (∀ (ts : List (ℚ × ℚ × ℚ × ℚ)) (s : WorkerState),
      ts.length ≤ s.queue.length →
      (process_queue_run f pid qid bn ts s).executed
        = s.executed ++ (s.queue.take ts.length).map Job.job_id)
    ∧ (∀ (M : ℤ) (jid : String) (body : Option Dict) (pid2 qid2 : ℕ)
        (bn2 : JVal) (t0 t1 : ℚ) (q : List Job) (rd : Dict) (st : ℕ) (q2 : List Job),
        wrapper M false f jid body pid2 qid2 bn2 t0 t1 q
          = DispatchOutcome.accepted rd st q2 →
        q2 = q ++ [⟨jid, body.getD [], t0⟩]) := by
  constructor
  · intro ts
    induction ts with
    | nil => intro s _; simp [process_queue_run]
    | cons t ts ih =>
      intro s h
      cases hq : s.queue with
      | nil => rw [hq] at h; simp at h
      | cons job rest =>
        have hlen : ts.length ≤ rest.length := by
          rw [hq] at h
          simpa using h
        rw [process_queue_run]
        cases hf : f job.job_id job.data with
        | error e =>
          have hstep : process_queue_step f pid qid bn t.1 t.2.1 t.2.2.1 t.2.2.2 s
              = { queue := rest, sent := s.sent,
                  errors_logged := s.errors_logged + 1,
                  executed := s.executed ++ [job.job_id] } := by
            unfold process_queue_step
            simp [hq, hf]
          rw [hstep, ih _ hlen]
          simp [hq]
        | ok resp =>
          have hstep : process_queue_step f pid qid bn t.1 t.2.1 t.2.2.1 t.2.2.2 s
              = { queue := rest,
                  sent := s.sent ++ [(Dict.get job.data "webhook_url",
                    worker_response resp job (t.1 - job.queue_start_time)
                      (t.2.2.1 - t.2.1) (t.2.2.2 - job.queue_start_time)
                      pid qid rest.length bn)],
                  errors_logged := s.errors_logged,
                  executed := s.executed ++ [job.job_id] } := by
            unfold process_queue_step
            simp [hq, hf]
          rw [hstep, ih _ hlen]
          simp [hq]
  · intro M jid body pid2 qid2 bn2 t0 t1 q rd st q2 hw
    unfold wrapper at hw
    by_cases hk : Dict.hasKey (body.getD []) "webhook_url"
    · by_cases hcap : 0 < M ∧ M ≤ (q.length : ℤ)
      · simp [hk, hcap] at hw
      · simp [hk, hcap] at hw
        exact hw.2.2.symm
    · cases hfj : f jid (body.getD []) <;> simp [hk, hfj] at hw

/-- C6 witness: two queued jobs are executed in push order. -/
theorem C6_fifo_order_witness :
    (process_queue_run opOK 4 7 (JVal.num 1) [(0, 0, 0, 0), (1, 1, 1, 1)]
      ⟨[⟨"a", wkData, 0⟩, ⟨"b", wkData, 0⟩], [], 0, []⟩).executed = ["a", "b"] := by
  have h := (C6_fifo_order opOK 4 7 (JVal.num 1)).1 [(0, 0, 0, 0), (1, 1, 1, 1)]
    ⟨[⟨"a", wkData, 0⟩, ⟨"b", wkData, 0⟩], [], 0, []⟩ (by decide)
  simpa using h

/-- C3 counterexample: a job enqueued at time 0 and dequeued at time 0,
whose operation is timed from 100 to 100 and whose final clock reading
is 200 (the worker thread lost the CPU between the readings), gets an
envelope with queue_time 0 and run_time 0 but total_time 200, which is
not round(queue_time + run_time, 3) = 0: total_time is computed from a
fresh clock reading, not from the other two fields. -/
theorem C3_total_time_counterexample :
    (process_queue_step opOK 4 7 (JVal.num 1) 0 100 100 200
        ⟨[⟨"j", wkData, 0⟩], [], 0, []⟩).sent.map (fun e => Dict.get e.2 "queue_time")
      = [some (JVal.num 0)]
    ∧ (process_queue_step opOK 4 7 (JVal.num 1) 0 100 100 200
        ⟨[⟨"j", wkData, 0⟩], [], 0, []⟩).sent.map (fun e => Dict.get e.2 "run_time")
      = [some (JVal.num 0)]
    ∧ (process_queue_step opOK 4 7 (JVal.num 1) 0 100 100 200
        ⟨[⟨"j", wkData, 0⟩], [], 0, []⟩).sent.map (fun e => Dict.get e.2 "total_time")
      = [some (JVal.num 200)]
    ∧ JVal.num 200 ≠ JVal.num (round3 (0 + 0)) := by decide

/-- C3 amended: on the inline path queue_time is 0 and total_time is
round(run_time, 3) = round(queue_time + run_time, 3) exactly; on the
worker path total_time is the rounded elapsed time from enqueue to the
final clock reading, and it equals round(queue_time + run_time, 3) for
the raw durations whenever the clock does not advance between the
queue-time measurement and the start of the run, nor between the end of
the run and the final reading (below, the first two readings coincide
and the last two coincide). -/
theorem C3_total_time :
    (∀ (resp : OpResult) (data : Dict) (jid : String) (rt : ℚ)
      (pid qid ql : ℕ) (bn : JVal),
      Dict.get (inline_response resp data jid rt pid qid ql bn) "queue_time"
        = some (JVal.num 0)
      ∧ Dict.get (inline_response resp data jid rt pid qid ql bn) "total_time"
        = some (JVal.num (round3 (0 + rt))))
    ∧ (∀ (f : Op) (pid qid : ℕ) (bn : JVal) (s : WorkerState) (job : Job)
      (rest : List Job) (resp : OpResult) (t_get t_run_end : ℚ),
      s.queue = job :: rest → f job.job_id job.data = Except.ok resp →
      (process_queue_step f pid qid bn t_get t_get t_run_end t_run_end s).sent
        = s.sent ++ [(Dict.get job.data "webhook_url",
            worker_response resp job (t_get - job.queue_start_time)
              (t_run_end - t_get) (t_run_end - job.queue_start_time)
              pid qid rest.length bn)]
      ∧ Dict.get (worker_response resp job (t_get - job.queue_start_time)
            (t_run_end - t_get) (t_run_end - job.queue_start_time)
            pid qid rest.length bn) "total_time"
        = some (JVal.num (round3 ((t_get - job.queue_start_time)
            + (t_run_end - t_get))))) := by
  constructor
  · intro resp data jid rt pid qid ql bn
    constructor
    · simp [inline_response, Dict.get]
    · simp only [inline_response, Dict.get, zero_add]
      simp
  · intro f pid qid bn s job rest resp t_get t_run_end hq hf
    constructor
    · unfold process_queue_step
      simp [hq, hf]
    · have harg : (t_get - job.queue_start_time) + (t_run_end - t_get)
          = t_run_end - job.queue_start_time := by ring
      rw [harg]
      simp [worker_response, Dict.get]

/-- C3 witness: a job enqueued at 0, dequeued at 0, run from 0 to 5
with coinciding adjacent readings satisfies the rounded identity. -/
theorem C3_total_time_witness :
    Dict.get (worker_response ⟨JVal.str "done", "/test", 200⟩ ⟨"j", wkData, 0⟩
        ((0 : ℚ) - 0) (5 - 0) (5 - 0) 4 7 0 (JVal.num 1)) "total_time"
      = some (JVal.num (round3 (((0 : ℚ) - 0) + (5 - 0)))) :=
  (C3_total_time.2 opOK 4 7 (JVal.num 1) ⟨[⟨"j", wkData, 0⟩], [], 0, []⟩
    ⟨"j", wkData, 0⟩ [] ⟨JVal.str "done", "/test", 200⟩ 0 5 rfl rfl).2

/-- C7 counterexample: a 304 Not Modified response is not a 2xx, yet
send_webhook returns True, because raise_for_status only raises for
statuses in [400, 600): the claim that any non-2xx response yields
False fails. -/
theorem C7_webhook_counterexample :
    (send_webhook (TransportOutcome.resp 304)).success = true
    ∧ ¬(200 ≤ 304 ∧ 304 < 300) := by decide

/-- C7 amended: every call makes exactly one POST attempt and never
raises or retries; the timeout passed to the POST is the 10-second
default when no per-call timeout is supplied — and also when 0 is
supplied, 0 being falsy — and the supplied value otherwise; the call
returns True iff the transport delivered a response with status outside
[400, 600) (in particular on every 2xx), and on a transport error or a
4xx/5xx status it logs the failure and returns False; the module-level
send_webhook used by the worker always runs with the default timeout. -/
theorem C7_webhook_contract (timeout : Option ℤ) (tr : TransportOutcome) :
    (send_webhook_with timeout tr).attempts = 1
    ∧ ((send_webhook_with timeout tr).success = true
        ↔ ∃ s, tr = TransportOutcome.resp s ∧ ¬(400 ≤ s ∧ s < 600))
    ∧ (send_webhook_with timeout tr).logged_failure
        = !(send_webhook_with timeout tr).success
    ∧ (send_webhook_with none tr).timeout_used = 10
    ∧ (send_webhook_with (some 0) tr).timeout_used = 10
    ∧ (∀ v : ℤ, v ≠ 0 → (send_webhook_with (some v) tr).timeout_used = v)
    ∧ send_webhook tr = send_webhook_with none tr := by
  refine ⟨?_, ?_, ?_, ?_, ?_, ?_, rfl⟩
  · cases tr with
    | exn => cases timeout <;> simp [send_webhook_with]
    | resp s =>
        cases timeout <;> cases hrs : raise_for_status s <;>
          simp [send_webhook_with, hrs]
  · cases tr with
    | exn => cases timeout <;> simp [send_webhook_with]
    | resp s =>
        by_cases h : 400 ≤ s ∧ s < 600 <;> cases timeout <;>
          simp [send_webhook_with, raise_for_status, h] <;> omega
  · cases tr with
    | exn => cases timeout <;> simp [send_webhook_with]
    | resp s =>
        cases timeout <;> cases hrs : raise_for_status s <;>
          simp [send_webhook_with, hrs]
  · cases tr with
    | exn => simp [send_webhook_with, default_timeout]
    | resp s =>
        cases hrs : raise_for_status s <;>
          simp [send_webhook_with, hrs, default_timeout]
  · cases tr with
    | exn => simp [send_webhook_with, default_timeout]
    | resp s =>
        cases hrs : raise_for_status s <;>
          simp [send_webhook_with, hrs, default_timeout]
  · intro v hv
    cases tr with
    | exn => simp [send_webhook_with, hv]
    | resp s =>
        cases hrs : raise_for_status s <;>
          simp [send_webhook_with, hrs, hv]

/-- C7 witness: a 201 response with a supplied timeout of 25 succeeds. -/
theorem C7_webhook_contract_witness :
    (send_webhook_with (some 25) (TransportOutcome.resp 201)).success = true :=
  (C7_webhook_contract (some 25) (TransportOutcome.resp 201)).2.1.mpr
    ⟨201, rfl, by decide⟩

/-- C8: the job_id field of the 202 accepted envelope equals the
job_id field of the webhook payload the worker later sends for the
pushed job — both are the single id generated when the request
arrived. -/
theorem C8_job_id_correlation (M : ℤ) (f : Op) (jid : String) (data : Dict)
    (pid qid : ℕ) (bn : JVal) (t0 t1 : ℚ) (q : List Job)
    (hk : Dict.hasKey data "webhook_url" = true)
    (hcap : ¬(0 < M ∧ M ≤ (q.length : ℤ)))
    (resp : OpResult) (hf : f jid data = Except.ok resp)
    (pid2 qid2 : ℕ) (bn2 : JVal) (tg tr1 tr2 td : ℚ)
    (sent0 : List (Option JVal × Dict)) (err0 : ℕ) (ex0 : List String) :
    wrapper M false f jid (some data) pid qid bn t0 t1 q
      = DispatchOutcome.accepted (accept_response M data jid pid qid (q.length + 1) bn)
          202 (q ++ [⟨jid, data, t0⟩])
    ∧ Dict.get (accept_response M data jid pid qid (q.length + 1) bn) "job_id"
      = some (JVal.str jid)
    ∧ (process_queue_step f pid2 qid2 bn2 tg tr1 tr2 td
        ⟨[⟨jid, data, t0⟩], sent0, err0, ex0⟩).sent
      = sent0 ++ [(Dict.get data "webhook_url",
          worker_response resp ⟨jid, data, t0⟩ (tg - t0) (tr2 - tr1) (td - t0)
            pid2 qid2 0 bn2)]
    ∧ Dict.get (worker_response resp ⟨jid, data, t0⟩ (tg - t0) (tr2 - tr1) (td - t0)
        pid2 qid2 0 bn2) "job_id" = some (JVal.str jid) := by
  refine ⟨?_, ?_, ?_, ?_⟩
  · unfold wrapper
    simp [hk, hcap]
  · simp [accept_response, Dict.get]
  · unfold process_queue_step
    simp [hf]
  · simp [worker_response, Dict.get]

/-- C8 witness: concrete accepted request and its later webhook payload
carry the same job id. -/
theorem C8_job_id_correlation_witness :
    Dict.get (accept_response 0 wkData "job-8" 4 7 1 (JVal.num 1)) "job_id"
      = some (JVal.str "job-8")
    ∧ Dict.get (worker_response ⟨JVal.str "done", "/test", 200⟩ ⟨"job-8", wkData, 0⟩
        ((1 : ℚ) - 0) (2 - 2) (3 - 0) 5 8 0 (JVal.num 2)) "job_id"
      = some (JVal.str "job-8") :=
  ⟨(C8_job_id_correlation 0 opOK "job-8" wkData 4 7 (JVal.num 1) 0 1 []
      (by decide) (by decide) ⟨JVal.str "done", "/test", 200⟩ rfl 5 8 (JVal.num 2)
      1 2 2 3 [] 0 []).2.1,
    (C8_job_id_correlation 0 opOK "job-8" wkData 4 7 (JVal.num 1) 0 1 []
      (by decide) (by decide) ⟨JVal.str "done", "/test", 200⟩ rfl 5 8 (JVal.num 2)
      1 2 2 3 [] 0 []).2.2.2⟩

end NCAT
